import Mathlib

/-!
Shallow embedding of the WebSocket relay handler
(src/functions/ws/handler.ts) of aws-sample-apigw-ws-api.

The externally managed services are modelled as oracles fixed per
invocation:
  * the DynamoDB registry table is a list of key/record pairs carried in
    the `World` state; `ddbPut` overwrites by primary key, `ddbDelete`
    removes by key, a scan returns all items (write and scan failures of
    the managed store are oracle bits in `Ctx`);
  * the API Gateway management push API is the oracle
    `Ctx.transport : endpoint → connectionId → message → SendOutcome`,
    where `gone` models a GoneException and `err e` any other thrown
    error `e`;
  * `JSON.parse` of the JS runtime is the oracle
    `Ctx.parse : String → Option Json` (`none` models a parse throw);
    JS property access on a parsed value is `jsGetProp`, which throws a
    TypeError when the value is `null`.
Async effects are linearized: the `Promise.all` fan-out is folded over
the enumerated connections in order, each delivery attempt recorded in
the `World.deliveries` trace; per-connection effects are single-key and
independent, so this linearization preserves the observable outcomes.
-/

namespace Ws

/-- JSON values, as produced by the JS runtime parse. Numbers are
modelled as integers (no claim depends on fractional values). -/
inductive Json where
  | null : Json
  | bool : Bool → Json
  | num : Int → Json
  | str : String → Json
  | arr : List Json → Json
  | obj : List (String × Json) → Json
deriving Repr

/-- First-match field lookup in a JS object literal. -/
def lookupField : List (String × Json) → String → Option Json
  | [], _ => none
  | (k1, v) :: rest, k => if k1 == k then some v else lookupField rest k

/-- JS property access `j.k`: throws a TypeError when the accessed
value is `null`; on any other value it yields the property, or
`undefined` (here `none`) when absent — primitives are boxed in JS, so
only `null` (and `undefined`, which `JSON.parse` never returns)
throws. -/
def jsGetProp (j : Json) (k : String) : Except String (Option Json) :=
  match j with
  | Json.null => Except.error "TypeError: cannot read properties of null"
  | Json.obj fs => Except.ok (lookupField fs k)
  | _ => Except.ok none

/-- JS truthiness of a parsed JSON value (`undefined` is handled by the
`Option` layer at use sites). -/
def jsTruthy : Json → Bool
  | Json.null => false
  | Json.bool b => b
  | Json.num n => n != 0
  | Json.str s => s != ""
  | Json.arr _ => true
  | Json.obj _ => true

/-- A registry row: `connectedAt` timestamp and the `ttl` attribute
written by `storeConnection`. The `connectionId` primary key is the
first component of the pair in the registry list. -/
structure ConnRecord where
  connectedAt : String
  ttl : Nat
deriving Repr, DecidableEq

/-- The connection registry: the DynamoDB table contents, keyed by
`connectionId`. -/
abbrev Registry := List (String × ConnRecord)

/-- One delivery attempt made through the management push API
(a `PostToConnectionCommand` sent on the wire). -/
structure Attempt where
  endpoint : String
  connectionId : String
  payload : Json
deriving Repr

/-- Observable state of one invocation: the registry table plus the
trace of delivery attempts, in the order they are issued. -/
structure World where
  registry : Registry
  deliveries : List Attempt
deriving Repr

/-- Outcome reported by the transport for one push:
success, GoneException (target unreachable), or any other error. -/
inductive SendOutcome where
  | ok : SendOutcome
  | gone : SendOutcome
  | err : String → SendOutcome
deriving Repr, DecidableEq

/-- Environment configuration of the Lambda (`WEBSOCKET_ENDPOINT`;
`TABLE_NAME` only selects the external table instance, which `World`
models directly). -/
structure Env where
  websocketEndpoint : String

/-- Per-invocation oracles for the external collaborators. -/
structure Ctx where
  transport : String → String → Json → SendOutcome
  parse : String → Option Json
  scanFails : Bool
  deleteFails : String → Bool
  putFails : String → Bool
  timestamp : String
  now : Nat

/-- `365 * 24 * 60 * 60`, the TTL horizon of a registry row. -/
def ONE_YEAR_IN_SECONDS : Nat := 365 * 24 * 60 * 60

/-- DynamoDB `PutItem`: idempotent overwrite by primary key. -/
def ddbPut (reg : Registry) (k : String) (r : ConnRecord) : Registry :=
  (k, r) :: reg.filter (fun p => p.1 != k)

/-- DynamoDB `DeleteItem`: delete-if-exists by primary key. -/
def ddbDelete (reg : Registry) (k : String) : Registry :=
  reg.filter (fun p => p.1 != k)

/-- `storeConnection`: put the row
`(connectionId, connectedAt = now, ttl = now + 1 year)`; a put failure
of the store propagates to the caller. -/
def storeConnection (ctx : Ctx) (w : World) (connectionId : String) :
    Except String Unit × World :=
  if ctx.putFails connectionId then (Except.error "putItem failed", w)
  else
    let row : ConnRecord := ⟨ctx.timestamp, ctx.now + ONE_YEAR_IN_SECONDS⟩
    (Except.ok (), { w with registry := ddbPut w.registry connectionId row })

/-- `removeConnection`: delete the row by key; a delete failure
propagates to the caller. -/
def removeConnection (ctx : Ctx) (w : World) (connectionId : String) :
    Except String Unit × World :=
  if ctx.deleteFails connectionId then (Except.error "deleteItem failed", w)
  else (Except.ok (), { w with registry := ddbDelete w.registry connectionId })

/-- `removeStaleConnection`: delete the row by key, but swallow (log
only) any failure of the delete itself. -/
def removeStaleConnection (ctx : Ctx) (w : World) (connectionId : String) :
    World :=
  if ctx.deleteFails connectionId then w
  else { w with registry := ddbDelete w.registry connectionId }

/-- `sendMessageToClient`: issue one `PostToConnectionCommand` (always
recorded as a delivery attempt), then classify the outcome: success
returns; a GoneException triggers `removeStaleConnection` and is
absorbed; any other error is rethrown unmodified. -/
def sendMessageToClient (ctx : Ctx) (w : World)
    (endpoint connectionId : String) (message : Json) :
    Except String Unit × World :=
  let w1 : World :=
    { w with deliveries := w.deliveries ++ [⟨endpoint, connectionId, message⟩] }
  match ctx.transport endpoint connectionId message with
  | SendOutcome.ok => (Except.ok (), w1)
  | SendOutcome.gone => (Except.ok (), removeStaleConnection ctx w1 connectionId)
  | SendOutcome.err e => (Except.error e, w1)

/-- `getConnections`: scan the table and return the list of
`connectionId` keys; a scan failure propagates. The scan mutates
nothing. -/
def getConnections (ctx : Ctx) (w : World) : Except String (List String) :=
  if ctx.scanFails then Except.error "scan failed"
  else Except.ok (w.registry.map Prod.fst)

/-- `if (endpoint.startsWith('wss://')) endpoint = 'https://' + endpoint.substring(6)`. -/
def normalizeEndpoint (e : String) : String :=
  if e.startsWith "wss://" then "https://" ++ e.drop 6 else e

/-- `JSON.parse(record.body)` with its catch: on a parse throw the body
is wrapped as a text object. -/
def parseRecordBody (ctx : Ctx) (body : String) : Json :=
  match ctx.parse body with
  | some j => j
  | none => Json.obj [("text", Json.str body)]

/-- `messageBody.data || messageBody`: the property access throws a
TypeError when the parsed body is `null`; otherwise JS `||` falls back
to the whole body when the property is absent or falsy. -/
def extractPostData (messageBody : Json) : Except String Json :=
  match jsGetProp messageBody "data" with
  | Except.error e => Except.error e
  | Except.ok (some d) => Except.ok (if jsTruthy d then d else messageBody)
  | Except.ok none => Except.ok messageBody

/-- The payload `postData` relayed for one queue record body; throws
when the body parses to `null`. -/
def broadcastPayload (ctx : Ctx) (body : String) : Except String Json :=
  extractPostData (parseRecordBody ctx body)

/-- One arm of the fan-out `map`: skip when `WEBSOCKET_ENDPOINT` is
unset, otherwise normalize the endpoint and send; every error of the
send is caught and only logged, so just the resulting world is kept. -/
def postToConnection (env : Env) (ctx : Ctx) (w : World) (postData : Json)
    (connectionId : String) : World :=
  if env.websocketEndpoint = "" then w
  else
    (sendMessageToClient ctx w (normalizeEndpoint env.websocketEndpoint)
      connectionId postData).2

/-- Processing of one SQS record inside `handleSQSEvent`: enumerate the
registry (a scan failure is caught and the record skipped), skip when no
connection is registered, otherwise derive `postData` and fan out to
every enumerated connection, joining on all attempts. The `postData`
derivation sits outside every inner catch, so its TypeError (body
parsing to `null`) escapes the record loop. -/
def processSQSRecord (env : Env) (ctx : Ctx) (w : World) (body : String) :
    Except String Unit × World :=
  match getConnections ctx w with
  | Except.error _ => (Except.ok (), w)
  | Except.ok conns =>
    if conns.length = 0 then (Except.ok (), w)
    else
      match broadcastPayload ctx body with
      | Except.error e => (Except.error e, w)
      | Except.ok postData =>
          (Except.ok (),
           conns.foldl (fun wa cid => postToConnection env ctx wa postData cid) w)

/-- `handleSQSEvent`: process each record of the batch in order. An
error escaping a record (the outer catch only logs and rethrows it)
aborts the batch; the effects of the earlier records persist. -/
def handleSQSEvent (env : Env) (ctx : Ctx) :
    World → List String → Except String Unit × World
  | w, [] => (Except.ok (), w)
  | w, b :: rest =>
    match processSQSRecord env ctx w b with
    | (Except.error e, w1) => (Except.error e, w1)
    | (Except.ok _, w1) => handleSQSEvent env ctx w1 rest

/-- An `APIGatewayProxyResult`. -/
structure ProxyResult where
  statusCode : Nat
  body : String
deriving Repr, DecidableEq

/-- A WebSocket session event: the request-context fields the handler
reads, plus the optional frame body. -/
structure WsEvent where
  connectionId : String
  routeKey : String
  domainName : String
  stage : String
  body : Option String

/-- `handlePingRoute`: build the reply endpoint from the event routing
context, send `(action: pong)` to the requesting connection, and answer
200 on success or 500 when the send rethrew. -/
def handlePingRoute (ctx : Ctx) (w : World)
    (connectionId domainName stage : String) : ProxyResult × World :=
  let endpoint := "https://" ++ domainName ++ "/" ++ stage
  match sendMessageToClient ctx w endpoint connectionId
      (Json.obj [("action", Json.str "pong")]) with
  | (Except.ok _, w1) => (⟨200, "Pong sent"⟩, w1)
  | (Except.error _, w1) => (⟨500, "Error handling ping"⟩, w1)

/-- `JSON.parse(event.body || '\x7b\x7d')`: a missing or empty (falsy)
body falls back to the literal empty-object text, which the JS runtime
always parses to the empty object. -/
def parseBodyOrDefault (parse : String → Option Json) :
    Option String → Option Json
  | none => some (Json.obj [])
  | some s => if s = "" then some (Json.obj []) else parse s

/-- `body.action === 'ping'`: strict equality of the accessed `action`
property with the string `ping`. -/
def isPingAction (av : Option Json) : Bool :=
  match av with
  | some (Json.str a) => a == "ping"
  | _ => false

/-- `handleWebSocketEvent`: the four-way route switch. `$connect`
registers, `$disconnect` unregisters (either answering 500 through the
outer catch if the store call throws), `ping` delegates to
`handlePingRoute`, `$default` parses the frame body and reads its
`action` property (the same catch turns a parse throw or the TypeError
of an access on `null` into a 400) and either behaves as ping or
acknowledges; any other route answers 400 naming the route. -/
def handleWebSocketEvent (ctx : Ctx) (w : World) (e : WsEvent) :
    ProxyResult × World :=
  if e.routeKey = "$connect" then
    match storeConnection ctx w e.connectionId with
    | (Except.ok _, w1) => (⟨200, "Connected"⟩, w1)
    | (Except.error _, w1) => (⟨500, "Internal server error"⟩, w1)
  else if e.routeKey = "$disconnect" then
    match removeConnection ctx w e.connectionId with
    | (Except.ok _, w1) => (⟨200, "Disconnected"⟩, w1)
    | (Except.error _, w1) => (⟨500, "Internal server error"⟩, w1)
  else if e.routeKey = "ping" then
    handlePingRoute ctx w e.connectionId e.domainName e.stage
  else if e.routeKey = "$default" then
    match parseBodyOrDefault ctx.parse e.body with
    | none => (⟨400, "Invalid message format"⟩, w)
    | some bj =>
      match jsGetProp bj "action" with
      | Except.error _ => (⟨400, "Invalid message format"⟩, w)
      | Except.ok av =>
        if isPingAction av then
          handlePingRoute ctx w e.connectionId e.domainName e.stage
        else (⟨200, "Message received"⟩, w)
  else (⟨400, "Unhandled route: " ++ e.routeKey⟩, w)

/-- The two event shapes the combined handler distinguishes (plus the
unknown fallback), resolved from the raw event fields
(`Records[0].eventSource`, `requestContext.routeKey`). -/
inductive LambdaEvent where
  | sqs : List String → LambdaEvent
  | ws : WsEvent → LambdaEvent
  | unknown : LambdaEvent

/-- The exported combined `handler`: an SQS batch is fanned out and, if
no record rethrew, acknowledged with 200 — an escaping error fails the
invocation (nothing catches it here); session events go to the route
switch (which never throws); anything else answers 400. -/
def handler (env : Env) (ctx : Ctx) (w : World) :
    LambdaEvent → Except String ProxyResult × World
  | LambdaEvent.sqs records =>
      match handleSQSEvent env ctx w records with
      | (Except.ok _, w1) => (Except.ok ⟨200, "SQS messages processed"⟩, w1)
      | (Except.error e, w1) => (Except.error e, w1)
  | LambdaEvent.ws e =>
      (Except.ok (handleWebSocketEvent ctx w e).1, (handleWebSocketEvent ctx w e).2)
  | LambdaEvent.unknown => (Except.ok ⟨400, "Unknown event type"⟩, w)

/-! ### Helper lemmas -/

/-- A send records exactly one delivery attempt, whatever the outcome. -/
theorem send_deliveries (ctx : Ctx) (w : World) (ep cid : String) (m : Json) :
    (sendMessageToClient ctx w ep cid m).2.deliveries
      = w.deliveries ++ [⟨ep, cid, m⟩] := by
  unfold sendMessageToClient
  cases ctx.transport ep cid m with
  | ok => rfl
  | gone =>
      unfold removeStaleConnection
      by_cases h : ctx.deleteFails cid = true <;> simp [h]
  | err e => rfl

/-- A send never touches any registry row other than the addressed one:
every row of the resulting registry was already present. -/
theorem send_registry_sub (ctx : Ctx) (w : World) (ep cid : String) (m : Json) :
    ∀ p, p ∈ (sendMessageToClient ctx w ep cid m).2.registry → p ∈ w.registry := by
  intro p hp
  unfold sendMessageToClient at hp
  cases h : ctx.transport ep cid m with
  | ok => rw [h] at hp; exact hp
  | gone =>
      rw [h] at hp
      unfold removeStaleConnection at hp
      by_cases hd : ctx.deleteFails cid = true
      · simp [hd] at hp; exact hp
      · simp [hd, ddbDelete] at hp
        exact hp.1
  | err e => rw [h] at hp; exact hp

/-- After a send whose transport outcome is a GoneException (and whose
purge delete does not itself fail), no registry row is keyed by the
addressed connection. -/
theorem send_gone_purges (ctx : Ctx) (w : World) (ep cid : String) (m : Json)
    (hg : ctx.transport ep cid m = SendOutcome.gone)
    (hdf : ctx.deleteFails cid = false) :
    ∀ p, p ∈ (sendMessageToClient ctx w ep cid m).2.registry → p.1 ≠ cid := by
  intro p hp
  unfold sendMessageToClient at hp
  rw [hg] at hp
  unfold removeStaleConnection at hp
  simp [hdf, ddbDelete] at hp
  exact hp.2

/-- The ping handler world is the world of its one send. -/
theorem handlePingRoute_world (ctx : Ctx) (w : World)
    (cid dom stage : String) :
    (handlePingRoute ctx w cid dom stage).2
      = (sendMessageToClient ctx w ("https://" ++ dom ++ "/" ++ stage) cid
          (Json.obj [("action", Json.str "pong")])).2 := by
  simp only [handlePingRoute]
  split <;> simp_all

/-- One fan-out arm records exactly one delivery attempt, to the
normalized endpoint, whenever the endpoint is configured. -/
theorem postToConnection_deliveries (env : Env) (ctx : Ctx) (w : World)
    (d : Json) (c : String) (hep : env.websocketEndpoint ≠ "") :
    (postToConnection env ctx w d c).deliveries
      = w.deliveries ++ [⟨normalizeEndpoint env.websocketEndpoint, c, d⟩] := by
  unfold postToConnection
  rw [if_neg hep, send_deliveries]

/-- One fan-out arm never adds registry rows. -/
theorem postToConnection_registry_sub (env : Env) (ctx : Ctx) (w : World)
    (d : Json) (c : String) :
    ∀ p, p ∈ (postToConnection env ctx w d c).registry → p ∈ w.registry := by
  intro p hp
  unfold postToConnection at hp
  by_cases hep : env.websocketEndpoint = ""
  · rw [if_pos hep] at hp; exact hp
  · rw [if_neg hep] at hp
    exact send_registry_sub ctx w _ c d p hp

/-- After the fan-out arm for a gone connection, no row is keyed by it. -/
theorem postToConnection_gone (env : Env) (ctx : Ctx) (w : World)
    (d : Json) (c : String) (hep : env.websocketEndpoint ≠ "")
    (hg : ctx.transport (normalizeEndpoint env.websocketEndpoint) c d
            = SendOutcome.gone)
    (hdf : ctx.deleteFails c = false) :
    ∀ p, p ∈ (postToConnection env ctx w d c).registry → p.1 ≠ c := by
  intro p hp
  unfold postToConnection at hp
  rw [if_neg hep] at hp
  exact send_gone_purges ctx w _ c d hg hdf p hp

/-- Deliveries of the whole fan-out fold: one attempt per enumerated
connection, in order. -/
theorem fanout_deliveries (env : Env) (ctx : Ctx) (d : Json)
    (hep : env.websocketEndpoint ≠ "") (conns : List String) :
    ∀ w : World,
      (conns.foldl (fun wa cid => postToConnection env ctx wa d cid) w).deliveries
        = w.deliveries
            ++ conns.map (fun c => ⟨normalizeEndpoint env.websocketEndpoint, c, d⟩) := by
  induction conns with
  | nil => intro w; simp
  | cons c cs ih =>
      intro w
      rw [List.foldl_cons, ih, postToConnection_deliveries env ctx w d c hep]
      simp

/-- The fan-out fold never adds registry rows. -/
theorem fanout_registry_sub (env : Env) (ctx : Ctx) (d : Json)
    (conns : List String) :
    ∀ (w : World) p,
      p ∈ (conns.foldl (fun wa cid => postToConnection env ctx wa d cid) w).registry
      → p ∈ w.registry := by
  induction conns with
  | nil => intro w p hp; exact hp
  | cons c cs ih =>
      intro w p hp
      rw [List.foldl_cons] at hp
      exact postToConnection_registry_sub env ctx w d c p (ih _ p hp)

/-- After the fan-out fold, no registry row is keyed by a fanned-out
connection whose transport outcome was gone (and whose purge delete
succeeded). -/
theorem fanout_gone_not_key (env : Env) (ctx : Ctx) (d : Json) (A : String)
    (hep : env.websocketEndpoint ≠ "")
    (hg : ctx.transport (normalizeEndpoint env.websocketEndpoint) A d
            = SendOutcome.gone)
    (hdf : ctx.deleteFails A = false) (conns : List String) :
    ∀ w : World, A ∈ conns →
      ∀ p, p ∈ (conns.foldl (fun wa cid => postToConnection env ctx wa d cid) w).registry
        → p.1 ≠ A := by
  induction conns with
  | nil => intro w h; cases h
  | cons c cs ih =>
      intro w hmem p hp
      rw [List.foldl_cons] at hp
      rcases List.mem_cons.mp hmem with hAc | hAcs
      · subst hAc
        exact postToConnection_gone env ctx w d A hep hg hdf p
          (fanout_registry_sub env ctx d cs _ p hp)
      · exact ih _ hAcs p hp

/-! ### Concrete fixtures for witnesses and counterexamples -/

/-- A world with two registered connections and an empty trace. -/
def w0 : World := ⟨[("connA", ⟨"t0", 100⟩), ("connB", ⟨"t0", 100⟩)], []⟩

/-- Environment with a `wss://` endpoint configured. -/
def envW : Env := ⟨"wss://example.org"⟩

/-- Oracles: every push succeeds, nothing parses, no store failures. -/
def ctxOk : Ctx :=
  ⟨fun _ _ _ => SendOutcome.ok, fun _ => none, false,
   fun _ => false, fun _ => false, "t1", 5⟩

/-- Oracles: every push reports a GoneException. -/
def ctxGone : Ctx :=
  ⟨fun _ _ _ => SendOutcome.gone, fun _ => none, false,
   fun _ => false, fun _ => false, "t1", 5⟩

/-- Oracles: every push throws a non-gone error. -/
def ctxErr : Ctx :=
  ⟨fun _ _ _ => SendOutcome.err "boom", fun _ => none, false,
   fun _ => false, fun _ => false, "t1", 5⟩

/-- Oracles: pushes to `connA` report gone, all others succeed. -/
def ctxMixed : Ctx :=
  ⟨fun _ cid _ => if cid == "connA" then SendOutcome.gone else SendOutcome.ok,
   fun _ => none, false, fun _ => false, fun _ => false, "t1", 5⟩

/-- Oracles: the registry scan throws. -/
def ctxScanFail : Ctx :=
  ⟨fun _ _ _ => SendOutcome.ok, fun _ => none, true,
   fun _ => false, fun _ => false, "t1", 5⟩

/-- Oracles: the text `B` parses to an object with a falsy `data`
field; pushes succeed. -/
def ctxFalsyData : Ctx :=
  ⟨fun _ _ _ => SendOutcome.ok,
   fun s => if s == "B" then some (Json.obj [("data", Json.bool false)]) else none,
   false, fun _ => false, fun _ => false, "t1", 5⟩

/-- Oracles: the text `D` parses to an object with a truthy `data`
field; pushes succeed. -/
def ctxTruthyData : Ctx :=
  ⟨fun _ _ _ => SendOutcome.ok,
   fun s => if s == "D" then some (Json.obj [("data", Json.str "payload")]) else none,
   false, fun _ => false, fun _ => false, "t1", 5⟩

/-- Oracles: the text `PING` parses to the ping-action object; pushes
succeed. -/
def ctxParsePing : Ctx :=
  ⟨fun _ _ _ => SendOutcome.ok,
   fun s => if s == "PING" then some (Json.obj [("action", Json.str "ping")]) else none,
   false, fun _ => false, fun _ => false, "t1", 5⟩

/-- Oracles: the text `null` parses to the JSON literal `null` (as
`JSON.parse` does); pushes succeed. -/
def ctxNullBody : Ctx :=
  ⟨fun _ _ _ => SendOutcome.ok,
   fun s => if s == "null" then some Json.null else none,
   false, fun _ => false, fun _ => false, "t1", 5⟩

/-! ### Claim theorems -/

/-- C2: for every delivery attempt, a target-unreachable
(GoneException) outcome makes the Delivery Client call the stale purge
on the addressed connection and return success to the caller, while any
other failure is rethrown unmodified with no registry mutation (only
the attempt itself is recorded in the trace). -/
theorem sendMessage_failure_classification (ctx : Ctx) (w : World)
    (endpoint cid : String) (msg : Json) :
    (ctx.transport endpoint cid msg = SendOutcome.gone →
      sendMessageToClient ctx w endpoint cid msg
        = (Except.ok (),
           removeStaleConnection ctx
             { w with deliveries := w.deliveries ++ [⟨endpoint, cid, msg⟩] } cid))
    ∧ (∀ e, ctx.transport endpoint cid msg = SendOutcome.err e →
      sendMessageToClient ctx w endpoint cid msg
        = (Except.error e,
           { w with deliveries := w.deliveries ++ [⟨endpoint, cid, msg⟩] })) := by
  constructor
  · intro h
    unfold sendMessageToClient
    rw [h]
  · intro e h
    unfold sendMessageToClient
    rw [h]

/-- Witness for C2: a gone outcome is absorbed into a purge and
success; an error outcome is rethrown with the registry untouched. -/
theorem sendMessage_failure_classification_witness :
    sendMessageToClient ctxGone w0 "https://d/s" "connA" Json.null
      = (Except.ok (),
         removeStaleConnection ctxGone
           { w0 with deliveries := w0.deliveries ++ [⟨"https://d/s", "connA", Json.null⟩] }
           "connA")
    ∧ sendMessageToClient ctxErr w0 "https://d/s" "connA" Json.null
      = (Except.error "boom",
         { w0 with deliveries := w0.deliveries ++ [⟨"https://d/s", "connA", Json.null⟩] }) :=
  ⟨(sendMessage_failure_classification ctxGone w0 "https://d/s" "connA" Json.null).1 rfl,
   (sendMessage_failure_classification ctxErr w0 "https://d/s" "connA" Json.null).2 "boom" rfl⟩

/-- C6: a ping session event for connection `cid` on domain `dom`,
stage `stage` records exactly one delivery attempt, to endpoint
`https://dom/stage`, addressed to `cid`, with payload
`(action: pong)`. -/
theorem ping_single_delivery (ctx : Ctx) (w : World)
    (cid dom stage : String) (b : Option String) :
    (handleWebSocketEvent ctx w ⟨cid, "ping", dom, stage, b⟩).2.deliveries
      = w.deliveries
        ++ [⟨"https://" ++ dom ++ "/" ++ stage, cid,
             Json.obj [("action", Json.str "pong")]⟩] := by
  have hroute : handleWebSocketEvent ctx w ⟨cid, "ping", dom, stage, b⟩
      = handlePingRoute ctx w cid dom stage := by
    simp [handleWebSocketEvent]
  rw [hroute, handlePingRoute_world, send_deliveries]

/-- C8: any session event whose route key is none of the four handled
routes answers 400 with a body naming the route, and leaves the world
(registry and delivery trace) untouched. -/
theorem unhandled_route_inert (ctx : Ctx) (w : World) (e : WsEvent)
    (h1 : e.routeKey ≠ "$connect") (h2 : e.routeKey ≠ "$disconnect")
    (h3 : e.routeKey ≠ "ping") (h4 : e.routeKey ≠ "$default") :
    handleWebSocketEvent ctx w e
      = (⟨400, "Unhandled route: " ++ e.routeKey⟩, w) := by
  simp [handleWebSocketEvent, h1, h2, h3, h4]

/-- Witness for C8 at the route key `foo`. -/
theorem unhandled_route_inert_witness :
    handleWebSocketEvent ctxOk w0 ⟨"connA", "foo", "d", "st", none⟩
      = (⟨400, "Unhandled route: " ++ "foo"⟩, w0) :=
  unhandled_route_inert ctxOk w0 ⟨"connA", "foo", "d", "st", none⟩
    (by decide) (by decide) (by decide) (by decide)

/-- C10: a ping whose push reports the connection gone still answers
200 `Pong sent`, although the only recorded attempt was not delivered,
and the requesting connection row is deleted from the registry. -/
theorem ping_gone_still_succeeds (ctx : Ctx) (w : World)
    (cid dom stage : String) (b : Option String)
    (hg : ctx.transport ("https://" ++ dom ++ "/" ++ stage) cid
            (Json.obj [("action", Json.str "pong")]) = SendOutcome.gone)
    (hdf : ctx.deleteFails cid = false) :
    handleWebSocketEvent ctx w ⟨cid, "ping", dom, stage, b⟩
      = (⟨200, "Pong sent"⟩,
         ⟨ddbDelete w.registry cid,
          w.deliveries ++ [⟨"https://" ++ dom ++ "/" ++ stage, cid,
            Json.obj [("action", Json.str "pong")]⟩]⟩) := by
  simp [handleWebSocketEvent, handlePingRoute, sendMessageToClient, hg,
    removeStaleConnection, hdf]

/-- Witness for C10: a ping from `connA` against an all-gone transport
answers 200 while `connA` is purged. -/
theorem ping_gone_still_succeeds_witness :
    handleWebSocketEvent ctxGone w0 ⟨"connA", "ping", "d", "st", none⟩
      = (⟨200, "Pong sent"⟩,
         ⟨ddbDelete w0.registry "connA",
          w0.deliveries ++ [⟨"https://" ++ "d" ++ "/" ++ "st", "connA",
            Json.obj [("action", Json.str "pong")]⟩]⟩) :=
  ping_gone_still_succeeds ctxGone w0 "connA" "d" "st" none rfl rfl

/-- C5: a `$default` session event whose (nonempty) body parses to the
object `(action: ping)` is handled exactly like a `ping` route event
with the same connection id, domain and stage: same delivery attempts,
same registry effect, same response. (An empty body never parses to
that object under JS `JSON.parse`, so nonemptiness excludes no real
input.) -/
theorem default_ping_equals_ping_route (ctx : Ctx) (w : World)
    (cid dom stage s : String) (b2 : Option String) (hne : s ≠ "")
    (hp : ctx.parse s = some (Json.obj [("action", Json.str "ping")])) :
    handleWebSocketEvent ctx w ⟨cid, "$default", dom, stage, some s⟩
      = handleWebSocketEvent ctx w ⟨cid, "ping", dom, stage, b2⟩ := by
  simp [handleWebSocketEvent, parseBodyOrDefault, hne, hp, isPingAction,
    jsGetProp, lookupField]

/-- Witness for C5 with a body text that parses to the ping action. -/
theorem default_ping_equals_ping_route_witness :
    handleWebSocketEvent ctxParsePing w0 ⟨"connA", "$default", "d", "st", some "PING"⟩
      = handleWebSocketEvent ctxParsePing w0 ⟨"connA", "ping", "d", "st", none⟩ :=
  default_ping_equals_ping_route ctxParsePing w0 "connA" "d" "st" "PING" none
    (by decide) rfl

/-- C7 (amended): a `$default` session event whose body is present,
nonempty and unparseable answers 400 `Invalid message format` and
leaves the world untouched: no delivery attempt, no registry change.
(A present empty body is excluded: it is falsy in JS, so the code
substitutes the empty-object text and acknowledges with 200.) -/
theorem default_unparseable_400 (ctx : Ctx) (w : World)
    (cid dom stage s : String) (hne : s ≠ "") (hp : ctx.parse s = none) :
    handleWebSocketEvent ctx w ⟨cid, "$default", dom, stage, some s⟩
      = (⟨400, "Invalid message format"⟩, w) := by
  simp [handleWebSocketEvent, parseBodyOrDefault, hne, hp]

/-- Witness for C7 (amended) at the unparseable body `notjson`. -/
theorem default_unparseable_400_witness :
    handleWebSocketEvent ctxOk w0 ⟨"connA", "$default", "d", "st", some "notjson"⟩
      = (⟨400, "Invalid message format"⟩, w0) :=
  default_unparseable_400 ctxOk w0 "connA" "d" "st" "notjson" (by decide) rfl

/-- Counterexample to C7 as stated: the body `""` is present and not
parseable as structured data (`JSON.parse` of an empty string throws,
and the oracle here parses nothing), yet the handler answers 200
`Message received`, not 400, because the empty string is falsy and the
code substitutes the empty-object text before parsing. -/
theorem default_empty_body_not_400 :
    ctxOk.parse "" = none
    ∧ handleWebSocketEvent ctxOk w0 ⟨"connA", "$default", "d", "st", some ""⟩
        = (⟨200, "Message received"⟩, w0) :=
  ⟨rfl, rfl⟩

/-- C3 (amended): when the registry scan fails, each affected record is
skipped with the error absorbed — no delivery attempt and no registry
change — and the combined handler still acknowledges the whole batch
with 200, so the message is consumed rather than left for the queue
retry/dead-letter policy. -/
theorem scan_failure_absorbed (env : Env) (ctx : Ctx) (w : World)
    (records : List String) (hscan : ctx.scanFails = true) :
    handler env ctx w (LambdaEvent.sqs records)
      = (Except.ok ⟨200, "SQS messages processed"⟩, w) := by
  have hrec : ∀ (wa : World) (b : String),
      processSQSRecord env ctx wa b = (Except.ok (), wa) := by
    intro wa b
    simp [processSQSRecord, getConnections, hscan]
  have hbatch : ∀ (rs : List String) (wa : World),
      handleSQSEvent env ctx wa rs = (Except.ok (), wa) := by
    intro rs
    induction rs with
    | nil => intro wa; rfl
    | cons b rest ih =>
        intro wa
        simp only [handleSQSEvent, hrec wa b]
        exact ih wa
  simp only [handler]
  rw [hbatch records w]

/-- Witness for C3 (amended) at a singleton batch against a failing
scan oracle. -/
theorem scan_failure_absorbed_witness :
    handler envW ctxScanFail w0 (LambdaEvent.sqs ["m"])
      = (Except.ok ⟨200, "SQS messages processed"⟩, w0) :=
  scan_failure_absorbed envW ctxScanFail w0 ["m"] rfl

/-- Counterexample to C3 as stated: with a nonempty registry and a
failing scan, the broadcast of the record is indeed skipped (no
delivery attempt), but the handler reports success (200) for the batch
instead of aborting, so the message is not left eligible for the
queue's retry/dead-letter policy. -/
theorem scan_failure_still_acknowledged :
    ctxScanFail.scanFails = true
    ∧ w0.registry ≠ []
    ∧ handler envW ctxScanFail w0 (LambdaEvent.sqs ["m"])
        = (Except.ok ⟨200, "SQS messages processed"⟩, w0) :=
  ⟨rfl, by decide, rfl⟩

/-- C4 (amended): the payload relayed for a record body is the parsed
body's `data` field when that property access yields a truthy value;
the whole parsed body when the access yields `undefined` or a falsy
value (JS `||` does not distinguish absent from falsy); the wrapper
object `(text: raw body)` when the body does not parse; and a body
parsing to `null` makes the payload derivation throw a TypeError
instead of relaying anything. -/
theorem broadcast_payload_selection (ctx : Ctx) (body : String) :
    (∀ j d, ctx.parse body = some j → jsGetProp j "data" = Except.ok (some d) →
        jsTruthy d = true → broadcastPayload ctx body = Except.ok d)
    ∧ (∀ j d, ctx.parse body = some j → jsGetProp j "data" = Except.ok (some d) →
        jsTruthy d = false → broadcastPayload ctx body = Except.ok j)
    ∧ (∀ j, ctx.parse body = some j → jsGetProp j "data" = Except.ok none →
        broadcastPayload ctx body = Except.ok j)
    ∧ (ctx.parse body = none →
        broadcastPayload ctx body = Except.ok (Json.obj [("text", Json.str body)]))
    ∧ (ctx.parse body = some Json.null →
        ∃ e, broadcastPayload ctx body = Except.error e) := by
  refine ⟨?_, ?_, ?_, ?_, ?_⟩
  · intro j d hj hd ht
    simp [broadcastPayload, parseRecordBody, extractPostData, hj, hd, ht]
  · intro j d hj hd ht
    simp [broadcastPayload, parseRecordBody, extractPostData, hj, hd, ht]
  · intro j hj hd
    simp [broadcastPayload, parseRecordBody, extractPostData, hj, hd]
  · intro hp
    simp [broadcastPayload, parseRecordBody, extractPostData, hp,
      jsGetProp, lookupField]
  · intro hp
    refine ⟨"TypeError: cannot read properties of null", ?_⟩
    simp [broadcastPayload, parseRecordBody, extractPostData, hp, jsGetProp]

/-- Witness for C4 (amended): a truthy `data` field is relayed alone;
an unparseable body is relayed as the text wrapper; a body parsing to
`null` throws. -/
theorem broadcast_payload_selection_witness :
    broadcastPayload ctxTruthyData "D" = Except.ok (Json.str "payload")
    ∧ broadcastPayload ctxTruthyData "hello"
        = Except.ok (Json.obj [("text", Json.str "hello")])
    ∧ (∃ e, broadcastPayload ctxNullBody "null" = Except.error e) :=
  ⟨(broadcast_payload_selection ctxTruthyData "D").1
      (Json.obj [("data", Json.str "payload")]) (Json.str "payload") rfl rfl rfl,
   (broadcast_payload_selection ctxTruthyData "hello").2.2.2.1 rfl,
   (broadcast_payload_selection ctxNullBody "null").2.2.2.2 rfl⟩

/-- Counterexample to C4 as stated: the body `B` parses to an object
containing the `data` field with value `false`, yet the payload fanned
out to both registered connections is the whole parsed object, not that
`data` field, because JS `||` falls back on any falsy value. -/
theorem falsy_data_field_not_relayed :
    ctxFalsyData.parse "B" = some (Json.obj [("data", Json.bool false)])
    ∧ jsGetProp (Json.obj [("data", Json.bool false)]) "data"
        = Except.ok (some (Json.bool false))
    ∧ (processSQSRecord envW ctxFalsyData w0 "B").2.deliveries.map Attempt.payload
        = [Json.obj [("data", Json.bool false)],
           Json.obj [("data", Json.bool false)]]
    ∧ Json.obj [("data", Json.bool false)] ≠ Json.bool false :=
  ⟨rfl, rfl, rfl, fun h => Json.noConfusion h⟩

/-- The registry row written for a registering connection. -/
def registeredRow (ctx : Ctx) : ConnRecord :=
  ⟨ctx.timestamp, ctx.now + ONE_YEAR_IN_SECONDS⟩

/-- Keys survive a filter against a different key. -/
theorem mem_keys_filter_ne (l : Registry) (c d : String) (hd : d ≠ c) :
    d ∈ (l.filter (fun p => p.1 != c)).map Prod.fst ↔ d ∈ l.map Prod.fst := by
  constructor
  · intro h
    rcases List.mem_map.mp h with ⟨p, hp, hpd⟩
    exact List.mem_map.mpr ⟨p, (List.mem_filter.mp hp).1, hpd⟩
  · intro h
    rcases List.mem_map.mp h with ⟨p, hp, hpd⟩
    refine List.mem_map.mpr ⟨p, List.mem_filter.mpr ⟨hp, ?_⟩, hpd⟩
    have hne : p.1 ≠ c := by rw [hpd]; exact hd
    simpa [bne_iff_ne] using hne

/-- The filtered-out key is gone from the keys. -/
theorem not_mem_keys_filter_self (l : Registry) (c : String) :
    c ∉ (l.filter (fun p => p.1 != c)).map Prod.fst := by
  intro h
  rcases List.mem_map.mp h with ⟨p, hp, hpc⟩
  have hne := (List.mem_filter.mp hp).2
  rw [bne_iff_ne] at hne
  exact hne hpc

/-- C1 (amended): for every broadcast record whose payload derivation
does not throw (any body except one parsing to `null`), a registry of N
connections (endpoint configured, scan succeeding) gets exactly N
delivery attempts, all settled before the record is considered
processed — one per registered id, in enumeration order, each to the
normalized endpoint with the common payload — and any connection whose
attempt came back target-unreachable has its registry row deleted,
while the attempts of all the others still appear in the trace. -/
theorem broadcast_fanout_complete (env : Env) (ctx : Ctx) (w : World)
    (body : String) (pd : Json) (hep : env.websocketEndpoint ≠ "")
    (hscan : ctx.scanFails = false)
    (hpd : broadcastPayload ctx body = Except.ok pd) :
    (processSQSRecord env ctx w body).2.deliveries
      = w.deliveries
        ++ w.registry.map (fun p =>
             ⟨normalizeEndpoint env.websocketEndpoint, p.1, pd⟩)
    ∧ (processSQSRecord env ctx w body).1 = Except.ok ()
    ∧ ∀ A ∈ w.registry.map Prod.fst,
        ctx.transport (normalizeEndpoint env.websocketEndpoint) A pd
            = SendOutcome.gone →
        ctx.deleteFails A = false →
        A ∉ (processSQSRecord env ctx w body).2.registry.map Prod.fst := by
  have hget : getConnections ctx w = Except.ok (w.registry.map Prod.fst) := by
    simp [getConnections, hscan]
  by_cases hreg : w.registry = []
  · refine ⟨?_, ?_, ?_⟩
    · simp [processSQSRecord, hget, hreg]
    · simp [processSQSRecord, hget, hreg]
    · intro A hA
      rw [hreg] at hA
      cases hA
  · have hlen : ¬ ((w.registry.map Prod.fst).length = 0) := by
      simpa using hreg
    have hproc : processSQSRecord env ctx w body
        = (Except.ok (),
           (w.registry.map Prod.fst).foldl
             (fun wa cid => postToConnection env ctx wa pd cid) w) := by
      simp [processSQSRecord, hget, hlen, hreg, hpd]
    refine ⟨?_, ?_, ?_⟩
    · rw [hproc]
      dsimp only
      rw [fanout_deliveries env ctx, List.map_map]
      · rfl
      · exact hep
    · rw [hproc]
    · intro A hA hg hdf hmem
      rw [hproc] at hmem
      dsimp only at hmem
      rcases List.mem_map.mp hmem with ⟨p, hp, hpA⟩
      exact fanout_gone_not_key env ctx pd A hep hg hdf
        (w.registry.map Prod.fst) w hA p hp hpA

/-- Witness for C1 (amended): two registered connections, body `hello`
wrapped as a text payload, pushes to `connA` report gone; both attempts
are recorded, the record settles, and `connA` is purged. -/
theorem broadcast_fanout_complete_witness :
    (processSQSRecord envW ctxMixed w0 "hello").2.deliveries
      = w0.deliveries
        ++ w0.registry.map (fun p =>
             ⟨normalizeEndpoint envW.websocketEndpoint, p.1,
              Json.obj [("text", Json.str "hello")]⟩)
    ∧ (processSQSRecord envW ctxMixed w0 "hello").1 = Except.ok ()
    ∧ ∀ A ∈ w0.registry.map Prod.fst,
        ctxMixed.transport (normalizeEndpoint envW.websocketEndpoint) A
            (Json.obj [("text", Json.str "hello")]) = SendOutcome.gone →
        ctxMixed.deleteFails A = false →
        A ∉ (processSQSRecord envW ctxMixed w0 "hello").2.registry.map Prod.fst :=
  broadcast_fanout_complete envW ctxMixed w0 "hello"
    (Json.obj [("text", Json.str "hello")]) (by decide) rfl rfl

/-- Counterexample to C1 as stated: a record body that parses to the
JSON literal `null` against a registry of two connections makes zero
delivery attempts — the `.data` access on the parsed `null` throws a
TypeError outside every inner catch, so the record loop aborts and the
invocation fails instead of acknowledging the batch. -/
theorem null_body_crashes_fanout :
    ctxNullBody.parse "null" = some Json.null
    ∧ w0.registry.length = 2
    ∧ processSQSRecord envW ctxNullBody w0 "null"
        = (Except.error "TypeError: cannot read properties of null", w0)
    ∧ (processSQSRecord envW ctxNullBody w0 "null").2.deliveries = []
    ∧ (handler envW ctxNullBody w0 (LambdaEvent.sqs ["null"])).1
        = Except.error "TypeError: cannot read properties of null" :=
  ⟨rfl, rfl, rfl, rfl, rfl⟩

/-- C9: registering a connection id (with the store calls succeeding)
makes the next enumeration contain it; then unregistering it makes the
following enumeration omit it; and neither operation changes the
membership of any other id. -/
theorem register_unregister_roundtrip (ctx : Ctx) (w : World) (c : String)
    (hput : ctx.putFails c = false) (hdel : ctx.deleteFails c = false)
    (hscan : ctx.scanFails = false) :
    ∃ w1 w2,
      storeConnection ctx w c = (Except.ok (), w1)
      ∧ removeConnection ctx w1 c = (Except.ok (), w2)
      ∧ getConnections ctx w1 = Except.ok (w1.registry.map Prod.fst)
      ∧ getConnections ctx w2 = Except.ok (w2.registry.map Prod.fst)
      ∧ c ∈ w1.registry.map Prod.fst
      ∧ c ∉ w2.registry.map Prod.fst
      ∧ (∀ d, d ≠ c →
          (d ∈ w1.registry.map Prod.fst ↔ d ∈ w.registry.map Prod.fst))
      ∧ (∀ d, d ≠ c →
          (d ∈ w2.registry.map Prod.fst ↔ d ∈ w.registry.map Prod.fst)) := by
  refine ⟨{ w with registry := ddbPut w.registry c (registeredRow ctx) },
          { w with registry := ddbDelete (ddbPut w.registry c (registeredRow ctx)) c },
          ?_, ?_, ?_, ?_, ?_, ?_, ?_, ?_⟩
  · simp [storeConnection, hput, registeredRow]
  · simp [removeConnection, hdel]
  · simp [getConnections, hscan]
  · simp [getConnections, hscan]
  · simp [ddbPut]
  · unfold ddbDelete
    exact not_mem_keys_filter_self _ c
  · intro d hd
    simp only [ddbPut, List.map_cons, List.mem_cons]
    rw [mem_keys_filter_ne w.registry c d hd]
    constructor
    · rintro (h | h)
      · exact absurd h hd
      · exact h
    · intro h
      exact Or.inr h
  · intro d hd
    unfold ddbDelete
    rw [mem_keys_filter_ne _ c d hd]
    simp only [ddbPut, List.map_cons, List.mem_cons]
    rw [mem_keys_filter_ne w.registry c d hd]
    constructor
    · rintro (h | h)
      · exact absurd h hd
      · exact h
    · intro h
      exact Or.inr h

/-- Witness for C9: round-trip of a fresh id `connC` against the
two-connection world. -/
theorem register_unregister_roundtrip_witness :
    ∃ w1 w2,
      storeConnection ctxOk w0 "connC" = (Except.ok (), w1)
      ∧ removeConnection ctxOk w1 "connC" = (Except.ok (), w2)
      ∧ getConnections ctxOk w1 = Except.ok (w1.registry.map Prod.fst)
      ∧ getConnections ctxOk w2 = Except.ok (w2.registry.map Prod.fst)
      ∧ "connC" ∈ w1.registry.map Prod.fst
      ∧ "connC" ∉ w2.registry.map Prod.fst
      ∧ (∀ d, d ≠ "connC" →
          (d ∈ w1.registry.map Prod.fst ↔ d ∈ w0.registry.map Prod.fst))
      ∧ (∀ d, d ≠ "connC" →
          (d ∈ w2.registry.map Prod.fst ↔ d ∈ w0.registry.map Prod.fst)) :=
  register_unregister_roundtrip ctxOk w0 "connC" rfl rfl rfl

end Ws
